import Mathlib

/-!
Portwarden command-line front end: session orchestration.

A shallow embedding of `cmd/portwarden/portwarden.go`.  The Go functions talk to
the outside world (the process environment, the `bw` subprocess, the
`portwarden` library).  Every such interaction is a field of `Sys`, acting on an
arbitrary world type `σ`; the embedded functions thread the world explicitly and
append one `Event` to a trace for every interaction they perform, so that
"is never invoked" is a statement about the trace.
-/

namespace Portwarden

/-! ## Constants of `portwarden.go` (lines 16-26) -/

def BackupFolderName : String := "./portwarden_backup/"
def ErrVaultIsLocked : String := "vault is locked"
def ErrNoPhassPhraseProvided : String := "no passphrase provided"
def ErrNoFilenameProvided : String := "no filename provided"
def ErrSessionKeyExtractionFailed : String := "session key extraction failed"
def BWErrInvalidMasterPassword : String := "Invalid master password."
def BWEnterEmailAddress : String := "? Email address:"
def BWEnterMasterPassword : String := "? Master password:"

/-! ## Go values -/

/-- A non-nil Go `error` value.  `errorsNew text` is the value built by a call
`errors.New(text)` inside `portwarden.go`; `foreign text` is an error value that
was handed to this file by `os/exec` or by the `portwarden` library.  A Go
`error` that may be `nil` is an `Option GoError`. -/
inductive GoError where
  | errorsNew (text : String)
  | foreign (text : String)
  deriving DecidableEq, Repr

/-- The method `err.Error()`. -/
def GoError.Error : GoError → String
  | .errorsNew text => text
  | .foreign text => text

/-- What a `bw` subprocess did between `cmd.Start()` and the return of
`cmd.Wait()`: either `Start` failed with an error (nothing was written to the
capture buffers), or the process ran and left `stdout` and `stderr` text. -/
inductive ProcResult where
  | launchFailed (err : GoError)
  | exited (stdout stderr : String)
  deriving DecidableEq, Repr

/-- The error returned by `cmd.Start()`. -/
def ProcResult.startErr : ProcResult → Option GoError
  | .launchFailed err => some err
  | .exited _ _ => none

/-- Contents of the `stdout` buffer after `cmd.Wait()`. -/
def ProcResult.stdout : ProcResult → String
  | .launchFailed _ => ""
  | .exited out _ => out

/-- Contents of the `stderr` buffer after `cmd.Wait()`. -/
def ProcResult.stderr : ProcResult → String
  | .launchFailed _ => ""
  | .exited _ err => err

/-- The package-level variables set by the command-line flags (lines 28-33). -/
structure Globals where
  passphrase : String
  filename : String
  sleepMilliseconds : Int
  noLogout : Bool
  deriving DecidableEq, Repr

/-- One observable interaction of the program with its surroundings. -/
inductive Event where
  | getenv (key : String)
  | start (name : String) (args : List String)
  | wait (name : String) (args : List String)
  | println (text : String)
  | extractSessionKey (stdout : String)
  | bwLogout
  | createBackupFile (fileName passphrase sessionKey : String)
      (sleepMilliseconds : Int) (noLogout : Bool)
  | decryptBackupFile (fileName passphrase : String)
  | restoreBackupFile (fileName passphrase sessionKey : String)
      (sleepMilliseconds : Int) (noLogout : Bool)
  deriving DecidableEq, Repr

/-- Everything `portwarden.go` uses but does not define, over a world `σ`:
the constant `portwarden.BWErrNotLoggedIn`, `os.Getenv`, the run of the
subprocess `bw <args>`, and the library functions `ExtractSessionKey`,
`BWLogout`, `CreateBackupFile`, `DecryptBackupFile`, `RestoreBackupFile`. -/
structure Sys (σ : Type) where
  BWErrNotLoggedIn : String
  Getenv : String → σ → String
  runBw : List String → σ → ProcResult × σ
  ExtractSessionKey : String → String × Option GoError
  BWLogout : σ → Option GoError × σ
  CreateBackupFile : String → String → String → Int → Bool → σ → Option GoError × σ
  DecryptBackupFile : String → String → σ → Option GoError × σ
  RestoreBackupFile : String → String → String → Int → Bool → σ → Option GoError × σ

/-- A point of an execution: the current world and the interactions so far
(oldest first). -/
structure Run (σ : Type) where
  world : σ
  trace : List Event
  deriving DecidableEq

/-- The start of an execution in world `w`. -/
def Run.init {σ : Type} (w : σ) : Run σ := ⟨w, []⟩

/-- Record an interaction. -/
def Run.emit {σ : Type} (r : Run σ) (e : Event) : Run σ :=
  ⟨r.world, r.trace ++ [e]⟩

/-! ## The functions of `portwarden.go` -/

/-- Lines 178-195. -/
def BWUnlockVaultToGetSessionKey {σ : Type} (sys : Sys σ) (r : Run σ) :
    (String × Option GoError) × Run σ :=
  let r1 := r.emit (.start "bw" ["unlock"])
  let (proc, w) := sys.runBw ["unlock"] r1.world
  let r2 : Run σ := ⟨w, r1.trace⟩
  let r3 := match proc.startErr with
    | some err => r2.emit (.println ("An error occurred: " ++ " " ++ err.Error))
    | none => r2
  let r4 := r3.emit (.wait "bw" ["unlock"])
  let r5 := r4.emit (.extractSessionKey proc.stdout)
  match sys.ExtractSessionKey proc.stdout with
  | (_, some _) => (("", some (.errorsNew proc.stderr)), r5)
  | (sessionKey, none) => ((sessionKey, none), r5)

/-- Lines 197-213. -/
def BWLoginGetSessionKey {σ : Type} (sys : Sys σ) (r : Run σ) :
    (String × Option GoError) × Run σ :=
  let r1 := r.emit (.start "bw" ["login"])
  let (proc, w) := sys.runBw ["login"] r1.world
  let r2 : Run σ := ⟨w, r1.trace⟩
  match proc.startErr with
  | some err => (("", some err), r2)
  | none =>
    let r3 := r2.emit (.wait "bw" ["login"])
    let r4 := r3.emit (.extractSessionKey proc.stdout)
    match sys.ExtractSessionKey proc.stdout with
    | (_, some _) => (("", some (.errorsNew proc.stdout)), r4)
    | (sessionKey, none) => ((sessionKey, none), r4)

/-- Lines 159-176. -/
def BWGetSessionKey {σ : Type} (sys : Sys σ) (r : Run σ) :
    (String × Option GoError) × Run σ :=
  let r1 := r.emit (.getenv "BW_SESSION")
  let sessionKey := sys.Getenv "BW_SESSION" r1.world
  if sessionKey = "" then
    match BWUnlockVaultToGetSessionKey sys r1 with
    | ((_, some err), r2) =>
      if err.Error = sys.BWErrNotLoggedIn then
        match BWLoginGetSessionKey sys r2 with
        | ((_, some err2), r3) => (("", some err2), r3)
        | ((sessionKey2, none), r3) => ((sessionKey2, none), r3)
      else
        (("", some err), r2)
    | ((sessionKey1, none), r2) => ((sessionKey1, none), r2)
  else
    ((sessionKey, none), r1)

/-- Lines 131-137. -/
def EncryptBackupController {σ : Type} (sys : Sys σ) (g : Globals)
    (fileName passphrase : String) (r : Run σ) : Option GoError × Run σ :=
  match BWGetSessionKey sys r with
  | ((_, some err), r1) => (some err, r1)
  | ((sessionKey, none), r1) =>
    let r2 := r1.emit
      (.createBackupFile fileName passphrase sessionKey g.sleepMilliseconds g.noLogout)
    let (err, w) :=
      sys.CreateBackupFile fileName passphrase sessionKey g.sleepMilliseconds g.noLogout r2.world
    (err, ⟨w, r2.trace⟩)

/-- Lines 139-141. -/
def DecryptBackupController {σ : Type} (sys : Sys σ)
    (fileName passphrase : String) (r : Run σ) : Option GoError × Run σ :=
  let r1 := r.emit (.decryptBackupFile fileName passphrase)
  let (err, w) := sys.DecryptBackupFile fileName passphrase r1.world
  (err, ⟨w, r1.trace⟩)

/-- Lines 152-156: the part of `RestoreBackupController` after the logout step. -/
def restoreAfterLogout {σ : Type} (sys : Sys σ) (g : Globals)
    (fileName passphrase : String) (r : Run σ) : Option GoError × Run σ :=
  match BWGetSessionKey sys r with
  | ((_, some err), r1) => (some err, r1)
  | ((sessionKey, none), r1) =>
    let r2 := r1.emit
      (.restoreBackupFile fileName passphrase sessionKey g.sleepMilliseconds g.noLogout)
    let (err, w) :=
      sys.RestoreBackupFile fileName passphrase sessionKey g.sleepMilliseconds g.noLogout r2.world
    (err, ⟨w, r2.trace⟩)

/-- Lines 143-157. -/
def RestoreBackupController {σ : Type} (sys : Sys σ) (g : Globals)
    (fileName passphrase : String) (r : Run σ) : Option GoError × Run σ :=
  let r0 := r.emit .bwLogout
  let (lerr, w0) := sys.BWLogout r0.world
  let r1 : Run σ := ⟨w0, r0.trace⟩
  let abort : Option GoError :=
    match lerr with
    | some err => if err.Error ≠ sys.BWErrNotLoggedIn then some err else none
    | none => none
  match abort with
  | some err => (some err, r1)
  | none =>
    match BWGetSessionKey sys r1 with
    | ((_, some err), r2) => (some err, r2)
    | ((sessionKey, none), r2) =>
      let r3 := r2.emit
        (.restoreBackupFile fileName passphrase sessionKey g.sleepMilliseconds g.noLogout)
      let (err, w) :=
        sys.RestoreBackupFile fileName passphrase sessionKey g.sleepMilliseconds g.noLogout
          r3.world
      (err, ⟨w, r3.trace⟩)

/-- Lines 69-79: the `Action` of the `encrypt` command. -/
def encryptAction {σ : Type} (sys : Sys σ) (g : Globals) (r : Run σ) :
    Option GoError × Run σ :=
  if g.passphrase.length = 0 then
    (some (.errorsNew ErrNoPhassPhraseProvided), r)
  else
    match EncryptBackupController sys g g.filename g.passphrase r with
    | (some err, r1) => (some err, r1)
    | (none, r1) => (none, r1.emit (.println "encrypted export successful"))

/-- Lines 85-98: the `Action` of the `decrypt` command. -/
def decryptAction {σ : Type} (sys : Sys σ) (g : Globals) (r : Run σ) :
    Option GoError × Run σ :=
  if g.passphrase.length = 0 then
    (some (.errorsNew ErrNoPhassPhraseProvided), r)
  else if g.filename.length = 0 then
    (some (.errorsNew ErrNoFilenameProvided), r)
  else
    match DecryptBackupController sys g.filename g.passphrase r with
    | (some err, r1) => (some err, r1)
    | (none, r1) => (none, r1.emit (.println "decryption successful"))

/-- Lines 104-117: the `Action` of the `restore` command. -/
def restoreAction {σ : Type} (sys : Sys σ) (g : Globals) (r : Run σ) :
    Option GoError × Run σ :=
  if g.passphrase.length = 0 then
    (some (.errorsNew ErrNoPhassPhraseProvided), r)
  else if g.filename.length = 0 then
    (some (.errorsNew ErrNoFilenameProvided), r)
  else
    match RestoreBackupController sys g g.filename g.passphrase r with
    | (some err, r1) => (some err, r1)
    | (none, r1) => (none, r1.emit (.println "restore successful"))

/-! ## A scripted world for concrete evaluation -/

/-- The answers of a scripted world: the value of `BW_SESSION`, what the
`bw unlock` and `bw login` subprocesses do, and what `BWLogout` returns. -/
structure Script where
  session : String
  unlock : ProcResult
  login : ProcResult
  logout : Option GoError

/-- A world that answers from a `Script`.  Its `ExtractSessionKey` accepts any
non-empty output as the key; its backup, decrypt and restore calls succeed. -/
def scripted (sc : Script) : Sys Unit where
  BWErrNotLoggedIn := "You are not logged in."
  Getenv := fun key _ => if key = "BW_SESSION" then sc.session else ""
  runBw := fun args w => if args = ["unlock"] then (sc.unlock, w) else (sc.login, w)
  ExtractSessionKey := fun out =>
    if out = "" then ("", some (.foreign ErrSessionKeyExtractionFailed)) else (out, none)
  BWLogout := fun w => (sc.logout, w)
  CreateBackupFile := fun _ _ _ _ _ w => (none, w)
  DecryptBackupFile := fun _ _ w => (none, w)
  RestoreBackupFile := fun _ _ _ _ _ w => (none, w)

/-- Flags `--passphrase p --filename f` with the defaults of the other two. -/
def flags (p f : String) : Globals := ⟨p, f, 300, false⟩

/-- The common tail of the unlock and login interactions (lines 190-194 and
208-212): the key when `ExtractSessionKey` succeeded, else the empty key and
`errors.New(text)` for the captured `text`. -/
def keyOrError (x : String × Option GoError) (text : String) : String × Option GoError :=
  match x with
  | (_, some _) => ("", some (.errorsNew text))
  | (sessionKey, none) => (sessionKey, none)

/-- Events that belong to session acquisition: reading the environment,
running `bw`, printing, and key extraction. -/
def Event.isSession : Event → Bool
  | .getenv _ => true
  | .start _ _ => true
  | .wait _ _ => true
  | .println _ => true
  | .extractSessionKey _ => true
  | _ => false

/-- World where `BW_SESSION` holds the token `tok`. -/
def envWorld : Sys Unit := scripted ⟨"tok", .exited "u" "", .exited "l" "", none⟩

/-- World with `BW_SESSION` unset, logged out: unlock answers "You are not logged in.",
login succeeds with key `KEY`. -/
def loggedOutWorld : Sys Unit :=
  scripted ⟨"", .exited "" "You are not logged in.", .exited "KEY" "", none⟩

/-- World with `BW_SESSION` unset, wrong master password at unlock. -/
def badPasswordWorld : Sys Unit :=
  scripted ⟨"", .exited "" "Invalid master password.", .exited "KEY" "", none⟩

/-- World with `BW_SESSION` unset where logout fails for a reason other than not being
logged in. -/
def logoutFailsWorld : Sys Unit :=
  scripted ⟨"", .exited "UNLOCKED" "", .exited "KEY" "", some (.foreign "signal: killed")⟩

/-- World with `BW_SESSION` unset, logged in and locked: unlock succeeds with key `UNLOCKED`. -/
def lockedWorld : Sys Unit :=
  scripted ⟨"", .exited "UNLOCKED" "", .exited "KEY" "", none⟩

/-- World where `BW_SESSION` holds the token `stale`; the vault tool is logged in and locked. -/
def staleSessionWorld : Sys Unit :=
  scripted ⟨"stale", .exited "UNLOCKED" "", .exited "KEY" "", none⟩

/-- World with `BW_SESSION` unset where `bw` cannot be started (`Start` fails with `cause`), and
`ExtractSessionKey` is the arbitrary function `extract`. -/
def launchFailsWorld (extract : String → String × Option GoError) (cause : String) :
    Sys Unit :=
  { scripted ⟨"", .launchFailed (.foreign cause), .launchFailed (.foreign cause), none⟩ with
    ExtractSessionKey := extract }

/-! ## Session acquisition -/

/-- C1: for every non-empty value of `BW_SESSION`, `BWGetSessionKey` returns
exactly that value with a nil error, and its only interaction is the read of the
variable: neither `bw unlock` nor `bw login` is started, whatever they would
have answered. -/
theorem BWGetSessionKey_env {σ : Type} (sys : Sys σ) (r : Run σ)
    (henv : sys.Getenv "BW_SESSION" r.world ≠ "") :
    BWGetSessionKey sys r =
      ((sys.Getenv "BW_SESSION" r.world, none), r.emit (.getenv "BW_SESSION")) := by
  simp [BWGetSessionKey, Run.emit, henv]

/-- Evaluation of C1 in a world where `BW_SESSION` is `tok`. -/
theorem BWGetSessionKey_env_witness :
    envWorld.Getenv "BW_SESSION" (Run.init ()).world ≠ "" ∧
    BWGetSessionKey envWorld (Run.init ()) =
      ((envWorld.Getenv "BW_SESSION" (Run.init ()).world, none),
        (Run.init ()).emit (.getenv "BW_SESSION")) :=
  ⟨by decide, BWGetSessionKey_env envWorld (Run.init ()) (by decide)⟩

/-- Unlock when `bw unlock` cannot be started. -/
theorem unlock_launchFailed {σ : Type} (sys : Sys σ) (r : Run σ) (err : GoError) (w : σ)
    (h : sys.runBw ["unlock"] r.world = (.launchFailed err, w)) :
    BWUnlockVaultToGetSessionKey sys r =
      (keyOrError (sys.ExtractSessionKey "") "",
        ⟨w, r.trace ++ [.start "bw" ["unlock"],
          .println ("An error occurred: " ++ " " ++ err.Error),
          .wait "bw" ["unlock"], .extractSessionKey ""]⟩) := by
  simp only [BWUnlockVaultToGetSessionKey, Run.emit, h, ProcResult.startErr,
    ProcResult.stdout, ProcResult.stderr, keyOrError, List.append_assoc, List.singleton_append]
  rcases sys.ExtractSessionKey "" with ⟨k, _ | e⟩ <;> rfl

/-- Unlock when `bw unlock` runs. -/
theorem unlock_exited {σ : Type} (sys : Sys σ) (r : Run σ) (out er : String) (w : σ)
    (h : sys.runBw ["unlock"] r.world = (.exited out er, w)) :
    BWUnlockVaultToGetSessionKey sys r =
      (keyOrError (sys.ExtractSessionKey out) er,
        ⟨w, r.trace ++ [.start "bw" ["unlock"], .wait "bw" ["unlock"],
          .extractSessionKey out]⟩) := by
  simp only [BWUnlockVaultToGetSessionKey, Run.emit, h, ProcResult.startErr,
    ProcResult.stdout, ProcResult.stderr, keyOrError, List.append_assoc, List.singleton_append]
  rcases sys.ExtractSessionKey out with ⟨k, _ | e⟩ <;> rfl

/-- Login when `bw login` cannot be started. -/
theorem login_launchFailed {σ : Type} (sys : Sys σ) (r : Run σ) (err : GoError) (w : σ)
    (h : sys.runBw ["login"] r.world = (.launchFailed err, w)) :
    BWLoginGetSessionKey sys r =
      (("", some err), ⟨w, r.trace ++ [.start "bw" ["login"]]⟩) := by
  simp only [BWLoginGetSessionKey, Run.emit, h, ProcResult.startErr]

/-- Login when `bw login` runs. -/
theorem login_exited {σ : Type} (sys : Sys σ) (r : Run σ) (out er : String) (w : σ)
    (h : sys.runBw ["login"] r.world = (.exited out er, w)) :
    BWLoginGetSessionKey sys r =
      (keyOrError (sys.ExtractSessionKey out) out,
        ⟨w, r.trace ++ [.start "bw" ["login"], .wait "bw" ["login"],
          .extractSessionKey out]⟩) := by
  simp only [BWLoginGetSessionKey, Run.emit, h, ProcResult.startErr,
    ProcResult.stdout, keyOrError, List.append_assoc, List.singleton_append]
  rcases sys.ExtractSessionKey out with ⟨k, _ | e⟩ <;> rfl

/-- The unlock interaction starts no `bw login` process. -/
theorem unlock_count_login {σ : Type} (sys : Sys σ) (r : Run σ) :
    (BWUnlockVaultToGetSessionKey sys r).2.trace.count (.start "bw" ["login"]) =
      r.trace.count (.start "bw" ["login"]) := by
  rcases h : sys.runBw ["unlock"] r.world with ⟨_ | ⟨out, er⟩, w⟩
  · rw [unlock_launchFailed sys r _ w h]
    simp [List.count_cons]
  · rw [unlock_exited sys r out er w h]
    simp [List.count_cons]

/-- A failing login interaction returns the empty session key. -/
theorem login_error_key {σ : Type} (sys : Sys σ) (r : Run σ)
    (h : (BWLoginGetSessionKey sys r).1.2 ≠ none) :
    (BWLoginGetSessionKey sys r).1.1 = "" := by
  rcases h1 : sys.runBw ["login"] r.world with ⟨_ | ⟨out, er⟩, w⟩
  · rw [login_launchFailed sys r _ w h1]
  · rw [login_exited sys r out er w h1] at h ⊢
    rcases h2 : sys.ExtractSessionKey out with ⟨k, _ | e⟩
    · simp [h2, keyOrError] at h
    · simp [keyOrError]

/-- The login interaction starts with the launch of `bw login`. -/
theorem login_start_mem {σ : Type} (sys : Sys σ) (r : Run σ) :
    Event.start "bw" ["login"] ∈ (BWLoginGetSessionKey sys r).2.trace := by
  rcases h1 : sys.runBw ["login"] r.world with ⟨_ | ⟨out, er⟩, w⟩
  · rw [login_launchFailed sys r _ w h1]
    simp
  · rw [login_exited sys r out er w h1]
    simp

/-- C2: when `BW_SESSION` is empty and the unlock interaction fails with an
error whose message is `portwarden.BWErrNotLoggedIn`, `BWGetSessionKey` runs the
login interaction from where unlock stopped and returns exactly what login
returns: its key with a nil error, or the empty key with its error. -/
theorem BWGetSessionKey_login_fallback {σ : Type} (sys : Sys σ) (r r2 : Run σ)
    (k : String) (e : GoError)
    (henv : sys.Getenv "BW_SESSION" r.world = "")
    (hunlock : BWUnlockVaultToGetSessionKey sys (r.emit (.getenv "BW_SESSION")) =
      ((k, some e), r2))
    (hmsg : e.Error = sys.BWErrNotLoggedIn) :
    BWGetSessionKey sys r = BWLoginGetSessionKey sys r2 ∧
    Event.start "bw" ["login"] ∈ (BWGetSessionKey sys r).2.trace ∧
    ((BWGetSessionKey sys r).1.2 ≠ none → (BWGetSessionKey sys r).1.1 = "") := by
  have heq : BWGetSessionKey sys r = BWLoginGetSessionKey sys r2 := by
    have henv2 : sys.Getenv "BW_SESSION" (r.emit (.getenv "BW_SESSION")).world = "" := henv
    unfold BWGetSessionKey
    simp only [henv2, hunlock, hmsg, if_true]
    rcases h3 : BWLoginGetSessionKey sys r2 with ⟨⟨k3, _ | e3⟩, r3⟩
    · rfl
    · have := login_error_key sys r2 (by rw [h3]; simp)
      rw [h3] at this
      simp only at this
      subst this
      rfl
  rw [heq]
  exact ⟨rfl, login_start_mem sys r2, login_error_key sys r2⟩

/-- C3: when `BW_SESSION` is empty and the unlock interaction fails with an
error whose message is not `portwarden.BWErrNotLoggedIn`, `BWGetSessionKey`
returns the empty key together with exactly that error, stops where unlock
stopped, and has started no `bw login` process. -/
theorem BWGetSessionKey_unlock_error {σ : Type} (sys : Sys σ) (r r2 : Run σ)
    (k : String) (e : GoError)
    (henv : sys.Getenv "BW_SESSION" r.world = "")
    (hunlock : BWUnlockVaultToGetSessionKey sys (r.emit (.getenv "BW_SESSION")) =
      ((k, some e), r2))
    (hmsg : e.Error ≠ sys.BWErrNotLoggedIn) :
    BWGetSessionKey sys r = (("", some e), r2) ∧
    (BWGetSessionKey sys r).2.trace.count (.start "bw" ["login"]) =
      r.trace.count (.start "bw" ["login"]) := by
  have henv2 : sys.Getenv "BW_SESSION" (r.emit (.getenv "BW_SESSION")).world = "" := henv
  have heq : BWGetSessionKey sys r = (("", some e), r2) := by
    unfold BWGetSessionKey
    simp only [henv2, hunlock, hmsg, if_true, if_false]
  have hc := unlock_count_login sys (r.emit (.getenv "BW_SESSION"))
  rw [hunlock] at hc
  rw [heq]
  refine ⟨rfl, ?_⟩
  simpa [Run.emit, List.count_singleton] using hc

/-- Evaluation of C2: logged out, login succeeds with `KEY`. -/
theorem BWGetSessionKey_login_fallback_witness :
    BWGetSessionKey loggedOutWorld (Run.init ()) =
      BWLoginGetSessionKey loggedOutWorld
        ⟨(), [.getenv "BW_SESSION", .start "bw" ["unlock"], .wait "bw" ["unlock"],
          .extractSessionKey ""]⟩ ∧
    Event.start "bw" ["login"] ∈ (BWGetSessionKey loggedOutWorld (Run.init ())).2.trace ∧
    ((BWGetSessionKey loggedOutWorld (Run.init ())).1.2 ≠ none →
      (BWGetSessionKey loggedOutWorld (Run.init ())).1.1 = "") :=
  BWGetSessionKey_login_fallback loggedOutWorld (Run.init ()) _ ""
    (.errorsNew "You are not logged in.") (by decide) (by decide) (by decide)

/-- Evaluation of C3: wrong master password at unlock. -/
theorem BWGetSessionKey_unlock_error_witness :
    BWGetSessionKey badPasswordWorld (Run.init ()) =
      (("", some (.errorsNew "Invalid master password.")),
        ⟨(), [.getenv "BW_SESSION", .start "bw" ["unlock"], .wait "bw" ["unlock"],
          .extractSessionKey ""]⟩) ∧
    (BWGetSessionKey badPasswordWorld (Run.init ())).2.trace.count (.start "bw" ["login"]) =
      (Run.init ()).trace.count (.start "bw" ["login"]) :=
  BWGetSessionKey_unlock_error badPasswordWorld (Run.init ()) _ ""
    (.errorsNew "Invalid master password.") (by decide) (by decide) (by decide)

/-! ## What session acquisition adds to the trace -/

/-- The unlock interaction appends session events only. -/
theorem unlock_trace {σ : Type} (sys : Sys σ) (r : Run σ) :
    ∃ l, (BWUnlockVaultToGetSessionKey sys r).2.trace = r.trace ++ l ∧
      ∀ ev ∈ l, Event.isSession ev = true := by
  rcases h : sys.runBw ["unlock"] r.world with ⟨_ | ⟨out, er⟩, w⟩
  · rw [unlock_launchFailed sys r _ w h]
    exact ⟨_, rfl, by simp [Event.isSession]⟩
  · rw [unlock_exited sys r out er w h]
    exact ⟨_, rfl, by simp [Event.isSession]⟩

/-- The login interaction appends session events only. -/
theorem login_trace {σ : Type} (sys : Sys σ) (r : Run σ) :
    ∃ l, (BWLoginGetSessionKey sys r).2.trace = r.trace ++ l ∧
      ∀ ev ∈ l, Event.isSession ev = true := by
  rcases h : sys.runBw ["login"] r.world with ⟨_ | ⟨out, er⟩, w⟩
  · rw [login_launchFailed sys r _ w h]
    exact ⟨_, rfl, by simp [Event.isSession]⟩
  · rw [login_exited sys r out er w h]
    exact ⟨_, rfl, by simp [Event.isSession]⟩

/-- Session acquisition `BWGetSessionKey` first reads `BW_SESSION` and then appends session events only. -/
theorem getSessionKey_trace {σ : Type} (sys : Sys σ) (r : Run σ) :
    ∃ l, (BWGetSessionKey sys r).2.trace = r.trace ++ Event.getenv "BW_SESSION" :: l ∧
      ∀ ev ∈ l, Event.isSession ev = true := by
  unfold BWGetSessionKey
  simp only
  by_cases henv : sys.Getenv "BW_SESSION" (r.emit (.getenv "BW_SESSION")).world = ""
  · rw [if_pos henv]
    obtain ⟨l1, h1, hl1⟩ := unlock_trace sys (r.emit (.getenv "BW_SESSION"))
    rcases hU : BWUnlockVaultToGetSessionKey sys (r.emit (.getenv "BW_SESSION")) with
      ⟨⟨k, _ | e⟩, r2⟩
    · rw [hU] at h1
      exact ⟨l1, by simpa [Run.emit] using h1, hl1⟩
    · rw [hU] at h1
      simp only at h1 ⊢
      by_cases hmsg : e.Error = sys.BWErrNotLoggedIn
      · rw [if_pos hmsg]
        obtain ⟨l2, h2, hl2⟩ := login_trace sys r2
        have h3 : (BWLoginGetSessionKey sys r2).2.trace =
            r.trace ++ Event.getenv "BW_SESSION" :: (l1 ++ l2) := by
          rw [h2, h1]; simp [Run.emit]
        have hl3 : ∀ ev ∈ l1 ++ l2, Event.isSession ev = true := by
          intro ev hev
          rcases List.mem_append.mp hev with h | h
          · exact hl1 ev h
          · exact hl2 ev h
        rcases hL : BWLoginGetSessionKey sys r2 with ⟨⟨k3, _ | e3⟩, r3⟩ <;>
          rw [hL] at h3 <;> exact ⟨l1 ++ l2, h3, hl3⟩
      · rw [if_neg hmsg]
        exact ⟨l1, by simpa [Run.emit] using h1, hl1⟩
  · rw [if_neg henv]
    exact ⟨[], by simp [Run.emit], by simp⟩

/-- Success of `BWGetSessionKey` with `BW_SESSION` empty, by the outcome of unlock and login. -/
theorem getSessionKey_empty_env {σ : Type} (sys : Sys σ) (r : Run σ)
    (henv : sys.Getenv "BW_SESSION" r.world = "") (k : String) (r2 : Run σ)
    (h : BWGetSessionKey sys r = ((k, none), r2)) :
    BWUnlockVaultToGetSessionKey sys (r.emit (.getenv "BW_SESSION")) = ((k, none), r2) ∨
    ∃ e, (BWUnlockVaultToGetSessionKey sys (r.emit (.getenv "BW_SESSION"))).1.2 = some e ∧
      e.Error = sys.BWErrNotLoggedIn ∧
      BWLoginGetSessionKey sys
        (BWUnlockVaultToGetSessionKey sys (r.emit (.getenv "BW_SESSION"))).2 = ((k, none), r2) := by
  have henv2 : sys.Getenv "BW_SESSION" (r.emit (.getenv "BW_SESSION")).world = "" := henv
  unfold BWGetSessionKey at h
  simp only [henv2, if_true] at h
  rcases hU : BWUnlockVaultToGetSessionKey sys (r.emit (.getenv "BW_SESSION")) with
    ⟨⟨k1, _ | e⟩, r1⟩
  · rw [hU] at h
    left
    simpa using h
  · rw [hU] at h
    simp only at h
    right
    by_cases hmsg : e.Error = sys.BWErrNotLoggedIn
    · rw [if_pos hmsg] at h
      refine ⟨e, rfl, hmsg, ?_⟩
      rcases hL : BWLoginGetSessionKey sys r1 with ⟨⟨k3, _ | e3⟩, r3⟩
      · rw [hL] at h
        simpa using h
      · rw [hL] at h
        simp at h
    · rw [if_neg hmsg] at h
      simp at h

/-! ## The controllers -/

/-- The controller `RestoreBackupController` when logout fails with an error other than
`BWErrNotLoggedIn`. -/
theorem restore_abort {σ : Type} (sys : Sys σ) (g : Globals) (f p : String) (r : Run σ)
    (e : GoError) (h : (sys.BWLogout r.world).1 = some e)
    (hmsg : e.Error ≠ sys.BWErrNotLoggedIn) :
    RestoreBackupController sys g f p r =
      (some e, ⟨(sys.BWLogout r.world).2, r.trace ++ [.bwLogout]⟩) := by
  simp only [RestoreBackupController, Run.emit, h, hmsg, ne_eq, not_false_eq_true, if_true]

/-- The controller `RestoreBackupController` when logout succeeds or reports `BWErrNotLoggedIn`. -/
theorem restore_proceed {σ : Type} (sys : Sys σ) (g : Globals) (f p : String) (r : Run σ)
    (h : ∀ e, (sys.BWLogout r.world).1 = some e → e.Error = sys.BWErrNotLoggedIn) :
    RestoreBackupController sys g f p r =
      restoreAfterLogout sys g f p ⟨(sys.BWLogout r.world).2, r.trace ++ [.bwLogout]⟩ := by
  rcases hl : (sys.BWLogout r.world).1 with _ | e
  · simp only [RestoreBackupController, restoreAfterLogout, Run.emit, hl]
  · have hmsg := h e hl
    simp only [RestoreBackupController, restoreAfterLogout, Run.emit, hl, hmsg, ne_eq,
      not_true_eq_false, if_false]

/-- The trace of `restoreAfterLogout`: session events, then at most one
`RestoreBackupFile` call, made with the key `BWGetSessionKey` returned. -/
theorem restoreAfterLogout_trace {σ : Type} (sys : Sys σ) (g : Globals) (f p : String)
    (r : Run σ) :
    ∃ l, (∀ ev ∈ l, Event.isSession ev = true) ∧
      ((restoreAfterLogout sys g f p r).2.trace = r.trace ++ Event.getenv "BW_SESSION" :: l ∨
       ∃ k r1, BWGetSessionKey sys r = ((k, none), r1) ∧
        (restoreAfterLogout sys g f p r).2.trace =
          r.trace ++ Event.getenv "BW_SESSION" ::
            (l ++ [.restoreBackupFile f p k g.sleepMilliseconds g.noLogout])) := by
  obtain ⟨l, hl, hs⟩ := getSessionKey_trace sys r
  refine ⟨l, hs, ?_⟩
  rcases hG : BWGetSessionKey sys r with ⟨⟨k, _ | e⟩, r1⟩
  · right
    rw [hG] at hl
    refine ⟨k, r1, rfl, ?_⟩
    simp only at hl
    simp [restoreAfterLogout, hG, Run.emit, hl]
  · left
    rw [hG] at hl
    simp only at hl
    simp [restoreAfterLogout, hG, hl]

/-- The trace of `EncryptBackupController`: session events, then at most one
`CreateBackupFile` call, made with the key `BWGetSessionKey` returned. -/
theorem encrypt_trace {σ : Type} (sys : Sys σ) (g : Globals) (f p : String) (r : Run σ) :
    ∃ l, (∀ ev ∈ l, Event.isSession ev = true) ∧
      ((EncryptBackupController sys g f p r).2.trace =
          r.trace ++ Event.getenv "BW_SESSION" :: l ∨
       ∃ k r1, BWGetSessionKey sys r = ((k, none), r1) ∧
        (EncryptBackupController sys g f p r).2.trace =
          r.trace ++ Event.getenv "BW_SESSION" ::
            (l ++ [.createBackupFile f p k g.sleepMilliseconds g.noLogout])) := by
  obtain ⟨l, hl, hs⟩ := getSessionKey_trace sys r
  refine ⟨l, hs, ?_⟩
  rcases hG : BWGetSessionKey sys r with ⟨⟨k, _ | e⟩, r1⟩
  · right
    rw [hG] at hl
    refine ⟨k, r1, rfl, ?_⟩
    simp only at hl
    simp [EncryptBackupController, hG, Run.emit, hl]
  · left
    rw [hG] at hl
    simp only at hl
    simp [EncryptBackupController, hG, hl]

/-- C4, refuted as stated: with `BW_SESSION` set to `stale`, after a successful
logout `RestoreBackupController` starts neither `bw unlock` nor `bw login` and
hands the environment token `stale` to `RestoreBackupFile`. -/
theorem RestoreBackupController_passes_env_token :
    staleSessionWorld.Getenv "BW_SESSION" () = "stale" ∧
    RestoreBackupController staleSessionWorld (flags "p" "f") "f" "p" (Run.init ()) =
      (none, ⟨(), [.bwLogout, .getenv "BW_SESSION",
        .restoreBackupFile "f" "p" "stale" 300 false]⟩) := by
  decide

/-- C4, amended: when `BW_SESSION` reads empty after the logout, every session
key that `RestoreBackupController` passes to `RestoreBackupFile` is the key
returned by the unlock interaction run after the logout, or, when unlock
reported `BWErrNotLoggedIn`, the key returned by the login interaction run after
it. -/
theorem RestoreBackupController_fresh_key {σ : Type} (sys : Sys σ) (g : Globals)
    (f p : String) (w : σ) (f1 p1 k : String) (s : Int) (n : Bool)
    (henv : sys.Getenv "BW_SESSION" (sys.BWLogout w).2 = "")
    (hmem : Event.restoreBackupFile f1 p1 k s n ∈
      (RestoreBackupController sys g f p (Run.init w)).2.trace) :
    (BWUnlockVaultToGetSessionKey sys
        ⟨(sys.BWLogout w).2, [.bwLogout, .getenv "BW_SESSION"]⟩).1 = (k, none) ∨
    ∃ e, (BWUnlockVaultToGetSessionKey sys
        ⟨(sys.BWLogout w).2, [.bwLogout, .getenv "BW_SESSION"]⟩).1.2 = some e ∧
      e.Error = sys.BWErrNotLoggedIn ∧
      (BWLoginGetSessionKey sys (BWUnlockVaultToGetSessionKey sys
        ⟨(sys.BWLogout w).2, [.bwLogout, .getenv "BW_SESSION"]⟩).2).1 = (k, none) := by
  by_cases hab : ∃ e, (sys.BWLogout (Run.init w).world).1 = some e ∧
      e.Error ≠ sys.BWErrNotLoggedIn
  · obtain ⟨e, he, hmsg⟩ := hab
    rw [restore_abort sys g f p (Run.init w) e he hmsg] at hmem
    simp [Run.init] at hmem
  · have hp : ∀ e, (sys.BWLogout (Run.init w).world).1 = some e →
        e.Error = sys.BWErrNotLoggedIn := by
      intro e he
      by_contra hne
      exact hab ⟨e, he, hne⟩
    rw [restore_proceed sys g f p (Run.init w) hp] at hmem
    obtain ⟨l, hs, ht⟩ := restoreAfterLogout_trace sys g f p
      ⟨(sys.BWLogout (Run.init w).world).2, (Run.init w).trace ++ [.bwLogout]⟩
    rcases ht with ht | ⟨k1, r1, hG, ht⟩
    · rw [ht] at hmem
      simp [Run.init] at hmem
      have := hs _ hmem
      simp [Event.isSession] at this
    · rw [ht] at hmem
      simp [Run.init] at hmem
      rcases hmem with hmem | hmem
      · have := hs _ hmem
        simp [Event.isSession] at this
      · obtain ⟨-, -, hk, -, -⟩ := hmem
        subst hk
        have := getSessionKey_empty_env sys _ henv _ _ hG
        rcases this with h | ⟨e, h1, h2, h3⟩
        · left
          simpa [Run.emit, Run.init] using congrArg Prod.fst h
        · right
          refine ⟨e, ?_, h2, ?_⟩
          · simpa [Run.emit, Run.init] using h1
          · simpa [Run.emit, Run.init] using congrArg Prod.fst h3

/-- Evaluation of C4 amended: logged out, `BW_SESSION` unset; the key `KEY`
passed to `RestoreBackupFile` is the one login returned. -/
theorem RestoreBackupController_fresh_key_witness :
    loggedOutWorld.Getenv "BW_SESSION" (loggedOutWorld.BWLogout ()).2 = "" ∧
    Event.restoreBackupFile "f" "p" "KEY" 300 false ∈
      (RestoreBackupController loggedOutWorld (flags "p" "f") "f" "p" (Run.init ())).2.trace ∧
    ((BWUnlockVaultToGetSessionKey loggedOutWorld
        ⟨(loggedOutWorld.BWLogout ()).2, [.bwLogout, .getenv "BW_SESSION"]⟩).1 = ("KEY", none) ∨
    ∃ e, (BWUnlockVaultToGetSessionKey loggedOutWorld
        ⟨(loggedOutWorld.BWLogout ()).2, [.bwLogout, .getenv "BW_SESSION"]⟩).1.2 = some e ∧
      e.Error = loggedOutWorld.BWErrNotLoggedIn ∧
      (BWLoginGetSessionKey loggedOutWorld (BWUnlockVaultToGetSessionKey loggedOutWorld
        ⟨(loggedOutWorld.BWLogout ()).2, [.bwLogout, .getenv "BW_SESSION"]⟩).2).1 =
          ("KEY", none)) :=
  ⟨by decide, by decide,
    RestoreBackupController_fresh_key loggedOutWorld (flags "p" "f") "f" "p" ()
      "f" "p" "KEY" 300 false (by decide) (by decide)⟩

/-- C5: the logout step of `RestoreBackupController` stops the run exactly when
logout fails with an error whose message differs from `BWErrNotLoggedIn`; then
that error is returned and nothing follows the logout in the trace.  Otherwise
the controller continues with session acquisition and `RestoreBackupFile`, and
its result is the result of that continuation alone. -/
theorem RestoreBackupController_logout_idempotent {σ : Type} (sys : Sys σ) (g : Globals)
    (f p : String) (r : Run σ) :
    ((RestoreBackupController sys g f p r).2.trace = r.trace ++ [.bwLogout] ↔
      ∃ e, (sys.BWLogout r.world).1 = some e ∧ e.Error ≠ sys.BWErrNotLoggedIn) ∧
    (∀ e, (sys.BWLogout r.world).1 = some e → e.Error ≠ sys.BWErrNotLoggedIn →
      RestoreBackupController sys g f p r =
        (some e, ⟨(sys.BWLogout r.world).2, r.trace ++ [.bwLogout]⟩)) ∧
    ((∀ e, (sys.BWLogout r.world).1 = some e → e.Error = sys.BWErrNotLoggedIn) →
      RestoreBackupController sys g f p r =
        restoreAfterLogout sys g f p ⟨(sys.BWLogout r.world).2, r.trace ++ [.bwLogout]⟩ ∧
      Event.getenv "BW_SESSION" ∈ (RestoreBackupController sys g f p r).2.trace) := by
  have hcont : (∀ e, (sys.BWLogout r.world).1 = some e → e.Error = sys.BWErrNotLoggedIn) →
      ∃ l, (RestoreBackupController sys g f p r).2.trace =
        r.trace ++ [.bwLogout] ++ Event.getenv "BW_SESSION" :: l := by
    intro hp
    rw [restore_proceed sys g f p r hp]
    obtain ⟨l, -, ht⟩ := restoreAfterLogout_trace sys g f p
      ⟨(sys.BWLogout r.world).2, r.trace ++ [.bwLogout]⟩
    rcases ht with ht | ⟨k1, r1, -, ht⟩
    · exact ⟨l, ht⟩
    · exact ⟨_, ht⟩
  refine ⟨⟨?_, ?_⟩, ?_, ?_⟩
  · intro htr
    by_contra hab
    have hp : ∀ e, (sys.BWLogout r.world).1 = some e → e.Error = sys.BWErrNotLoggedIn := by
      intro e he
      by_contra hne
      exact hab ⟨e, he, hne⟩
    obtain ⟨l, hl⟩ := hcont hp
    rw [htr] at hl
    have := congrArg List.length hl
    simp at this
  · rintro ⟨e, he, hmsg⟩
    rw [restore_abort sys g f p r e he hmsg]
  · intro e he hmsg
    exact restore_abort sys g f p r e he hmsg
  · intro hp
    refine ⟨restore_proceed sys g f p r hp, ?_⟩
    obtain ⟨l, hl⟩ := hcont hp
    rw [hl]
    simp

/-- Evaluation of C5: a logout that fails with `signal: killed` stops the run. -/
theorem RestoreBackupController_logout_idempotent_witness :
    RestoreBackupController logoutFailsWorld (flags "p" "f") "f" "p" (Run.init ()) =
      (some (.foreign "signal: killed"),
        ⟨(logoutFailsWorld.BWLogout (Run.init ()).world).2,
          (Run.init ()).trace ++ [.bwLogout]⟩) :=
  (RestoreBackupController_logout_idempotent logoutFailsWorld (flags "p" "f") "f" "p"
    (Run.init ())).2.1 (.foreign "signal: killed") (by decide) (by decide)

/-- C6: if `BWGetSessionKey` fails, `EncryptBackupController` returns that same
error, stops where session acquisition stopped and has made no
`CreateBackupFile` call; and every `CreateBackupFile` call it makes carries the
key of a successful `BWGetSessionKey` together with its own file name,
passphrase and flags. -/
theorem EncryptBackupController_session_gate {σ : Type} (sys : Sys σ) (g : Globals)
    (f p : String) (w : σ) :
    (∀ k e r1, BWGetSessionKey sys (Run.init w) = ((k, some e), r1) →
      EncryptBackupController sys g f p (Run.init w) = (some e, r1) ∧
      ∀ f1 p1 k1 s n, Event.createBackupFile f1 p1 k1 s n ∉
        (EncryptBackupController sys g f p (Run.init w)).2.trace) ∧
    (∀ f1 p1 k1 s n, Event.createBackupFile f1 p1 k1 s n ∈
        (EncryptBackupController sys g f p (Run.init w)).2.trace →
      (BWGetSessionKey sys (Run.init w)).1 = (k1, none) ∧
        f1 = f ∧ p1 = p ∧ s = g.sleepMilliseconds ∧ n = g.noLogout) := by
  obtain ⟨l, hs, ht⟩ := encrypt_trace sys g f p (Run.init w)
  constructor
  · intro k e r1 hG
    have heq : EncryptBackupController sys g f p (Run.init w) = (some e, r1) := by
      simp [EncryptBackupController, hG]
    refine ⟨heq, ?_⟩
    intro f1 p1 k1 s n hmem
    obtain ⟨l2, hl2, hs2⟩ := getSessionKey_trace sys (Run.init w)
    rw [heq] at hmem
    rw [hG] at hl2
    simp only at hl2 hmem
    rw [hl2] at hmem
    simp [Run.init] at hmem
    have := hs2 _ hmem
    simp [Event.isSession] at this
  · intro f1 p1 k1 s n hmem
    rcases ht with ht | ⟨k, r1, hG, ht⟩
    · rw [ht] at hmem
      simp [Run.init] at hmem
      have := hs _ hmem
      simp [Event.isSession] at this
    · rw [ht] at hmem
      simp [Run.init] at hmem
      rcases hmem with hmem | hmem
      · have := hs _ hmem
        simp [Event.isSession] at this
      · obtain ⟨h1, h2, h3, h4, h5⟩ := hmem
        rw [hG]
        exact ⟨by rw [h3], h1, h2, h4, h5⟩

/-- Evaluation of C6: wrong master password, so no backup call. -/
theorem EncryptBackupController_session_gate_witness :
    EncryptBackupController badPasswordWorld (flags "p" "f") "f" "p" (Run.init ()) =
      (some (.errorsNew "Invalid master password."),
        ⟨(), [.getenv "BW_SESSION", .start "bw" ["unlock"], .wait "bw" ["unlock"],
          .extractSessionKey ""]⟩) :=
  ((EncryptBackupController_session_gate badPasswordWorld (flags "p" "f") "f" "p" ()).1
    "" (.errorsNew "Invalid master password.") _ (by decide)).1

/-- C7: with an empty passphrase each of the three command actions returns the
error `no passphrase provided` and leaves the run untouched (no interaction, no
controller call), whatever the file name is, the empty one included. -/
theorem actions_reject_empty_passphrase {σ : Type} (sys : Sys σ) (g : Globals) (r : Run σ)
    (hp : g.passphrase = "") :
    encryptAction sys g r = (some (.errorsNew "no passphrase provided"), r) ∧
    decryptAction sys g r = (some (.errorsNew "no passphrase provided"), r) ∧
    restoreAction sys g r = (some (.errorsNew "no passphrase provided"), r) := by
  simp [encryptAction, decryptAction, restoreAction, hp, ErrNoPhassPhraseProvided]

/-- Evaluation of C7 with both the passphrase and the file name empty. -/
theorem actions_reject_empty_passphrase_witness :
    (flags "" "").passphrase = "" ∧
    (encryptAction lockedWorld (flags "" "") (Run.init ()) =
        (some (.errorsNew "no passphrase provided"), Run.init ()) ∧
      decryptAction lockedWorld (flags "" "") (Run.init ()) =
        (some (.errorsNew "no passphrase provided"), Run.init ()) ∧
      restoreAction lockedWorld (flags "" "") (Run.init ()) =
        (some (.errorsNew "no passphrase provided"), Run.init ())) :=
  ⟨rfl, actions_reject_empty_passphrase lockedWorld (flags "" "") (Run.init ()) rfl⟩

/-- C8, the code at the failing input `--passphrase p` with no file name: the
`decrypt` and `restore` actions reject it with `no filename provided` and leave
the run untouched, but the `encrypt` action goes on to read `BW_SESSION`, and in
a logged-in, locked world it unlocks the vault and calls `CreateBackupFile` with
the empty file name. -/
theorem encryptAction_skips_filename_check {σ : Type} (sys : Sys σ) (r : Run σ) :
    decryptAction sys (flags "p" "") r = (some (.errorsNew "no filename provided"), r) ∧
    restoreAction sys (flags "p" "") r = (some (.errorsNew "no filename provided"), r) ∧
    Event.getenv "BW_SESSION" ∈ (encryptAction sys (flags "p" "") r).2.trace ∧
    encryptAction lockedWorld (flags "p" "") (Run.init ()) =
      (none, ⟨(), [.getenv "BW_SESSION", .start "bw" ["unlock"], .wait "bw" ["unlock"],
        .extractSessionKey "UNLOCKED", .createBackupFile "" "p" "UNLOCKED" 300 false,
        .println "encrypted export successful"]⟩) := by
  refine ⟨?_, ?_, ?_, by decide⟩
  · have hpl : ¬ (flags "p" "").passphrase.length = 0 := by decide
    have hfl : (flags "p" "").filename.length = 0 := by decide
    simp only [decryptAction, if_neg hpl, if_pos hfl, ErrNoFilenameProvided]
  · have hpl : ¬ (flags "p" "").passphrase.length = 0 := by decide
    have hfl : (flags "p" "").filename.length = 0 := by decide
    simp only [restoreAction, if_neg hpl, if_pos hfl, ErrNoFilenameProvided]
  · obtain ⟨l, -, ht⟩ := encrypt_trace sys (flags "p" "") "" "p" r
    have hm : Event.getenv "BW_SESSION" ∈
        (EncryptBackupController sys (flags "p" "") "" "p" r).2.trace := by
      rcases ht with ht | ⟨k, r1, -, ht⟩ <;> rw [ht] <;> simp
    have hpl : ¬ (flags "p" "").passphrase.length = 0 := by decide
    unfold encryptAction
    rw [if_neg hpl]
    change Event.getenv "BW_SESSION" ∈
      (match EncryptBackupController sys (flags "p" "") "" "p" r with
        | (some err, r1) => (some err, r1)
        | (none, r1) => (none, r1.emit (.println "encrypted export successful"))).2.trace
    rcases hE : EncryptBackupController sys (flags "p" "") "" "p" r with ⟨_ | e, r1⟩
    · rw [hE] at hm
      simp only at hm
      simp [Run.emit, hm]
    · rw [hE] at hm
      simpa using hm

/-- C9: `DecryptBackupController` returns what `DecryptBackupFile(fileName,
passphrase)` returns, and that call is its only interaction: no logout, no
read of `BW_SESSION`, no `bw` process. -/
theorem DecryptBackupController_local {σ : Type} (sys : Sys σ) (f p : String) (r : Run σ) :
    DecryptBackupController sys f p r =
      ((sys.DecryptBackupFile f p r.world).1,
        ⟨(sys.DecryptBackupFile f p r.world).2, r.trace ++ [.decryptBackupFile f p]⟩) := by
  simp [DecryptBackupController, Run.emit]

/-- C10, the code when `bw` cannot be started with cause `cause`: the login
interaction stops at once and returns the launch error, but the unlock
interaction prints the error, waits, calls `ExtractSessionKey` on the empty
output and returns its key or `errors.New` of the empty `stderr`, never the
launch error. -/
theorem unlock_launch_failure_not_terminal (extract : String → String × Option GoError)
    (cause : String) :
    BWLoginGetSessionKey (launchFailsWorld extract cause) (Run.init ()) =
      (("", some (.foreign cause)), ⟨(), [.start "bw" ["login"]]⟩) ∧
    BWUnlockVaultToGetSessionKey (launchFailsWorld extract cause) (Run.init ()) =
      (keyOrError (extract "") "",
        ⟨(), [.start "bw" ["unlock"], .println ("An error occurred: " ++ " " ++ cause),
          .wait "bw" ["unlock"], .extractSessionKey ""]⟩) ∧
    (BWUnlockVaultToGetSessionKey (launchFailsWorld extract cause) (Run.init ())).1.2 ≠
      some (.foreign cause) := by
  have hU : BWUnlockVaultToGetSessionKey (launchFailsWorld extract cause) (Run.init ()) =
      (keyOrError (extract "") "",
        ⟨(), [.start "bw" ["unlock"], .println ("An error occurred: " ++ " " ++ cause),
          .wait "bw" ["unlock"], .extractSessionKey ""]⟩) :=
    unlock_launchFailed (launchFailsWorld extract cause) (Run.init ())
      (.foreign cause) () rfl
  refine ⟨login_launchFailed (launchFailsWorld extract cause) (Run.init ())
    (.foreign cause) () rfl, hU, ?_⟩
  rw [hU]
  rcases extract "" with ⟨k, _ | e⟩ <;> simp [keyOrError]

end Portwarden
